import Mathlib

/-!
Shallow embedding of the engagement/social data layer of the recensio
application (src/app/content_service.py and the follow endpoint of
src/app/views.py).  The relational store is modelled as lists of rows;
SQL statements are translated one by one:

* `INSERT ... ON CONFLICT DO NOTHING` — conditional append;
* `INSERT ... ON CONFLICT DO UPDATE`  — conditional append / in-place map;
* `UPDATE t SET ... WHERE id = x`     — `List.map` with an `if` on the key;
* `DELETE FROM t WHERE ...`           — `List.filter` with the negated test;
* `SELECT ... WHERE ...` + `fetchone` — `List.find?`;
* aggregate subqueries (`COUNT`, `AVG`) — `List.length` / exact `Rat` average;
* `CURRENT_TIMESTAMP` — an explicit `now : Nat` argument.

Python `ValueError` / `PermissionError` become an explicit error type; an
unhandled crash (e.g. `RETURNING` on a row that does not exist, making
`cursor.fetchone()[0]` fail) is `SvcError.fatal`.
-/

/-- Row of the `content` table. -/
structure Content where
  id : Nat
  tmdb_id : Nat
  media_type : String
  title : String
  poster_path : Option String
  backdrop_path : Option String
  release_date : Option String
  watched_count : Nat
  list_count : Nat
  avg_score : Option Rat
  total_scores : Nat
  updated_at : Nat
deriving Repr, DecidableEq

/-- Row of the `user_watched` table (natural key (user_id, content_id)). -/
structure WatchRow where
  user_id : Nat
  content_id : Nat
deriving Repr, DecidableEq

/-- Row of the `user_ratings` table. -/
structure RatingRow where
  id : Nat
  user_id : Nat
  content_id : Nat
  score : Nat
  review_text : Option String
  likes_count : Option Nat
  rated_at : Nat
  updated_at : Nat
deriving Repr, DecidableEq

/-- Row of the `user_lists` table. -/
structure UserListRow where
  id : Nat
  user_id : Nat
  name : String
  description : Option String
  is_public : Bool
  likes_count : Option Nat
  comments_count : Option Nat
  created_at : Nat
  updated_at : Nat
deriving Repr, DecidableEq

/-- Row of the `list_items` table. -/
structure ListItemRow where
  id : Nat
  list_id : Nat
  content_id : Nat
  added_at : Nat
deriving Repr, DecidableEq

/-- Row of the `list_likes` table (natural key (user_id, list_id)). -/
structure ListLikeRow where
  user_id : Nat
  list_id : Nat
deriving Repr, DecidableEq

/-- Row of the `list_comments` table. -/
structure ListCommentRow where
  id : Nat
  list_id : Nat
  user_id : Nat
  comment_text : String
  created_at : Nat
  updated_at : Nat
deriving Repr, DecidableEq

/-- Row of the `user_rating_likes` table (natural key (user_id, rating_id)). -/
structure RatingLikeRow where
  user_id : Nat
  rating_id : Nat
deriving Repr, DecidableEq

/-- Row of the `user_follows` table. -/
structure FollowRow where
  id : Nat
  follower_id : Nat
  followee_id : Nat
deriving Repr, DecidableEq

/-- Row of the `users` table (the columns the follow endpoint touches).
Counts are `Int`: SQL arithmetic does not truncate at zero. -/
structure UserRow where
  id : Nat
  username : String
  followers_count : Int
  following_count : Int
deriving Repr, DecidableEq

/-- The whole relational store.  `next_id` models the serial-id sequences
(primary keys are opaque; one shared counter keeps every generated id fresh). -/
structure DB where
  content : List Content
  user_watched : List WatchRow
  user_ratings : List RatingRow
  user_lists : List UserListRow
  list_items : List ListItemRow
  list_likes : List ListLikeRow
  list_comments : List ListCommentRow
  user_rating_likes : List RatingLikeRow
  user_follows : List FollowRow
  users : List UserRow
  next_id : Nat
deriving Repr, DecidableEq

/-- Errors raised by the service layer (`ValueError`, `PermissionError`) and
unhandled crashes (`fatal`). -/
inductive SvcError where
  | valueError (msg : String)
  | permissionError (msg : String)
  | fatal
deriving Repr, DecidableEq

/-- Python's `str.strip()`: drop leading and trailing whitespace.  Defined by
structural recursion over the character list so that concrete instances
evaluate inside the kernel. -/
def pyStrip (s : String) : String :=
  ⟨((s.data.dropWhile Char.isWhitespace).reverse.dropWhile Char.isWhitespace).reverse⟩

/-- Python's `str.lower()` / SQL `LOWER(...)`, by structural recursion over
the character list. -/
def pyLower (s : String) : String := ⟨s.data.map Char.toLower⟩

/-! ### Aggregations (the SQL subqueries) -/

/-- `SELECT COUNT(*) FROM user_watched WHERE content_id = cid` -/
def watchedCount (db : DB) (cid : Nat) : Nat :=
  (db.user_watched.filter (fun r => r.content_id == cid)).length

/-- Rows of `user_ratings` for one content. -/
def ratingRowsFor (db : DB) (cid : Nat) : List RatingRow :=
  db.user_ratings.filter (fun r => r.content_id == cid)

/-- `SELECT AVG(score) FROM user_ratings WHERE content_id = cid`
(NULL on an empty set, exact rational otherwise). -/
def avgScore (db : DB) (cid : Nat) : Option Rat :=
  let rows := ratingRowsFor db cid
  if rows.isEmpty then none
  else some (((rows.map (fun r => (r.score : Rat))).sum) / (rows.length : Rat))

/-- `SELECT COUNT(*) FROM list_items WHERE content_id = cid` -/
def listItemCount (db : DB) (cid : Nat) : Nat :=
  (db.list_items.filter (fun r => r.content_id == cid)).length

/-- `SELECT COUNT(*) FROM list_likes WHERE list_id = lid` -/
def listLikesCount (db : DB) (lid : Nat) : Nat :=
  (db.list_likes.filter (fun r => r.list_id == lid)).length

/-- `SELECT COUNT(*) FROM list_comments WHERE list_id = lid` -/
def listCommentsCount (db : DB) (lid : Nat) : Nat :=
  (db.list_comments.filter (fun r => r.list_id == lid)).length

/-- `SELECT COUNT(*) FROM user_rating_likes WHERE rating_id = rid` -/
def ratingLikesCount (db : DB) (rid : Nat) : Nat :=
  (db.user_rating_likes.filter (fun r => r.rating_id == rid)).length

/-- `SELECT COUNT(*) FROM user_follows WHERE followee_id = uid` -/
def followersCountLive (db : DB) (uid : Nat) : Nat :=
  (db.user_follows.filter (fun r => r.followee_id == uid)).length

/-! ### content_service.get_or_create_content -/

/-- `get_or_create_content(tmdb_id, media_type, title, poster_path,
backdrop_path, release_date)`: look the content up by
(tmdb_id, media_type); create it with zeroed counters if absent.
Returns the new store and the content id. -/
def get_or_create_content (db : DB) (now : Nat) (tmdb_id : Nat)
    (media_type title : String) (poster_path backdrop_path release_date :
    Option String) : DB × Nat :=
  match db.content.find? (fun c => c.tmdb_id == tmdb_id && c.media_type == media_type) with
  | some c => (db, c.id)
  | none =>
    let row : Content :=
      { id := db.next_id, tmdb_id := tmdb_id, media_type := media_type,
        title := title, poster_path := poster_path,
        backdrop_path := backdrop_path, release_date := release_date,
        watched_count := 0, list_count := 0, avg_score := none,
        total_scores := 0, updated_at := now }
    ({ db with content := db.content ++ [row], next_id := db.next_id + 1 },
     db.next_id)

/-! ### content_service.mark_as_watched -/

/-- `mark_as_watched(user_id, tmdb_id, media_type, title, poster_path)`:
get-or-create the content, `INSERT ... ON CONFLICT DO NOTHING` into
`user_watched`, then recompute `watched_count` on the content row and bump
its `updated_at`. -/
def mark_as_watched (db : DB) (now : Nat) (user_id tmdb_id : Nat)
    (media_type title : String) (poster_path : Option String) : DB :=
  let p := get_or_create_content db now tmdb_id media_type title poster_path none none
  let db1 : DB := p.1
  let cid := p.2
  let db2 : DB :=
    if db1.user_watched.any (fun r => r.user_id == user_id && r.content_id == cid) then db1
    else { db1 with user_watched := db1.user_watched ++ [⟨user_id, cid⟩] }
  { db2 with content := db2.content.map (fun c =>
      if c.id == cid then
        { c with watched_count := watchedCount db2 cid, updated_at := now }
      else c) }

/-- `has_user_watched`: membership test joined through content. -/
def has_user_watched (db : DB) (user_id tmdb_id : Nat) (media_type : String) : Bool :=
  db.user_watched.any (fun r =>
    r.user_id == user_id &&
    db.content.any (fun c =>
      c.id == r.content_id && c.tmdb_id == tmdb_id && c.media_type == media_type))

/-! ### content_service.add_rating -/

/-- `add_rating(user_id, tmdb_id, media_type, title, score, review_text,
poster_path)`: get-or-create the content, upsert into `user_ratings` keyed on
(user_id, content_id) (`ON CONFLICT DO UPDATE` sets score, review_text and
updated_at), then recompute `avg_score` and `total_scores` on the content. -/
def add_rating (db : DB) (now : Nat) (user_id tmdb_id : Nat)
    (media_type title : String) (score : Nat) (review_text : Option String)
    (poster_path : Option String) : DB :=
  let p := get_or_create_content db now tmdb_id media_type title poster_path none none
  let db1 : DB := p.1
  let cid := p.2
  let db2 : DB :=
    if db1.user_ratings.any (fun r => r.user_id == user_id && r.content_id == cid) then
      { db1 with user_ratings := db1.user_ratings.map (fun r =>
          if r.user_id == user_id && r.content_id == cid then
            { r with score := score, review_text := review_text, updated_at := now }
          else r) }
    else
      { db1 with
        user_ratings := db1.user_ratings ++
          [{ id := db1.next_id, user_id := user_id, content_id := cid,
             score := score, review_text := review_text, likes_count := none,
             rated_at := now, updated_at := now }],
        next_id := db1.next_id + 1 }
  { db2 with content := db2.content.map (fun c =>
      if c.id == cid then
        { c with avg_score := avgScore db2 cid,
                 total_scores := (ratingRowsFor db2 cid).length,
                 updated_at := now }
      else c) }

/-! ### content_service.add_to_list -/

/-- `add_to_list(list_id, tmdb_id, media_type, title, poster_path)`:
get-or-create the content, `INSERT ... ON CONFLICT DO NOTHING` into
`list_items`, then recompute `list_count` on the content. -/
def add_to_list (db : DB) (now : Nat) (list_id tmdb_id : Nat)
    (media_type title : String) (poster_path : Option String) : DB :=
  let p := get_or_create_content db now tmdb_id media_type title poster_path none none
  let db1 : DB := p.1
  let cid := p.2
  let db2 : DB :=
    if db1.list_items.any (fun r => r.list_id == list_id && r.content_id == cid) then db1
    else
      { db1 with
        list_items := db1.list_items ++ [⟨db1.next_id, list_id, cid, now⟩],
        next_id := db1.next_id + 1 }
  { db2 with content := db2.content.map (fun c =>
      if c.id == cid then
        { c with list_count := listItemCount db2 cid, updated_at := now }
      else c) }

/-! ### content_service list management -/

/-- `user_has_list_name(user_id, name)`: case-insensitive uniqueness check
(`LOWER(name) = LOWER(%s)`) among the user's lists. -/
def user_has_list_name (db : DB) (user_id : Nat) (name : String) : Bool :=
  db.user_lists.any (fun l =>
    l.user_id == user_id && pyLower l.name == pyLower name)

/-- `create_user_list(user_id, name, description, is_public)`: validate
(non-empty after trimming, at most 200 characters, case-insensitively unique
per owner — in that order, each raising `ValueError`), then insert and return
the created row.  Errors carry no store, so nothing is persisted on failure. -/
def create_user_list (db : DB) (now : Nat) (user_id : Nat) (name : String)
    (description : Option String) (is_public : Bool) :
    Except SvcError (DB × UserListRow) :=
  if pyStrip name == "" then
    .error (.valueError "List name is required")
  else
    let name := pyStrip name
    if name.length > 200 then
      .error (.valueError "List name must be 200 characters or fewer")
    else if user_has_list_name db user_id name then
      .error (.valueError "You already have a list with that name")
    else
      let row : UserListRow :=
        { id := db.next_id, user_id := user_id, name := name,
          description := description, is_public := is_public,
          likes_count := none, comments_count := none,
          created_at := now, updated_at := now }
      .ok ({ db with user_lists := db.user_lists ++ [row],
                     next_id := db.next_id + 1 }, row)

/-- `user_liked_list(user_id, list_id)`: membership test in `list_likes`. -/
def user_liked_list (db : DB) (user_id list_id : Nat) : Bool :=
  db.list_likes.any (fun r => r.user_id == user_id && r.list_id == list_id)

/-- `toggle_like_list(user_id, list_id)`: delete the membership if present,
insert it otherwise, then recompute `likes_count` on the list row and bump
its `updated_at` (`RETURNING likes_count` feeds the returned count).  If the
list row does not exist the `RETURNING` fetch crashes (`fatal`). -/
def toggle_like_list (db : DB) (now : Nat) (user_id list_id : Nat) :
    Except SvcError (DB × Bool × Nat) :=
  let ex := user_liked_list db user_id list_id
  let db1 : DB :=
    if ex then
      { db with list_likes := db.list_likes.filter (fun r =>
          !(r.user_id == user_id && r.list_id == list_id)) }
    else
      { db with list_likes := db.list_likes ++ [⟨user_id, list_id⟩] }
  if db1.user_lists.any (fun l => l.id == list_id) then
    let cnt := listLikesCount db1 list_id
    .ok ({ db1 with user_lists := db1.user_lists.map (fun l =>
        if l.id == list_id then
          { l with likes_count := some cnt, updated_at := now }
        else l) }, !ex, cnt)
  else .error .fatal

/-- `add_list_comment(user_id, list_id, comment_text)`: reject blank text with
`ValueError`, insert the trimmed comment, then recompute `comments_count` on
the list (crash if the list row is missing).  Returns the new comment id and
the updated count. -/
def add_list_comment (db : DB) (now : Nat) (user_id list_id : Nat)
    (comment_text : String) : Except SvcError (DB × Nat × Nat) :=
  if pyStrip comment_text == "" then
    .error (.valueError "Comment cannot be empty")
  else
    let text := pyStrip comment_text
    let db1 : DB :=
      { db with
        list_comments := db.list_comments ++
          [{ id := db.next_id, list_id := list_id, user_id := user_id,
             comment_text := text, created_at := now, updated_at := now }],
        next_id := db.next_id + 1 }
    if db1.user_lists.any (fun l => l.id == list_id) then
      let cnt := listCommentsCount db1 list_id
      .ok ({ db1 with user_lists := db1.user_lists.map (fun l =>
          if l.id == list_id then
            { l with comments_count := some cnt, updated_at := now }
          else l) }, db.next_id, cnt)
    else .error .fatal

/-- `delete_list_comment(actor_user_id, comment_id)`: resolve the comment
(`ValueError "Comment not found"`), its list (`ValueError "List not found"`),
check the actor is the comment author or the list owner
(`PermissionError` otherwise), then delete and recompute `comments_count`.
Returns the updated count and the list id. -/
def delete_list_comment (db : DB) (now : Nat) (actor_user_id comment_id : Nat) :
    Except SvcError (DB × Nat × Nat) :=
  match db.list_comments.find? (fun c => c.id == comment_id) with
  | none => .error (.valueError "Comment not found")
  | some c =>
    match db.user_lists.find? (fun l => l.id == c.list_id) with
    | none => .error (.valueError "List not found")
    | some lst =>
      if actor_user_id != c.user_id && actor_user_id != lst.user_id then
        .error (.permissionError "Not allowed to delete this comment")
      else
        let db1 : DB :=
          { db with list_comments := db.list_comments.filter (fun x =>
              !(x.id == comment_id)) }
        let cnt := listCommentsCount db1 c.list_id
        .ok ({ db1 with user_lists := db1.user_lists.map (fun l =>
            if l.id == c.list_id then
              { l with comments_count := some cnt, updated_at := now }
            else l) }, cnt, c.list_id)

/-! ### content_service.toggle_like_review -/

/-- `toggle_like_review(user_id, rating_id)`: toggle the membership in
`user_rating_likes`, then recompute the cached `likes_count` on the rating
row *without touching `updated_at`* (the `UPDATE` sets only `likes_count`). -/
def toggle_like_review (db : DB) (user_id rating_id : Nat) :
    Except SvcError (DB × Bool × Nat) :=
  let ex := db.user_rating_likes.any (fun r =>
    r.user_id == user_id && r.rating_id == rating_id)
  let db1 : DB :=
    if ex then
      { db with user_rating_likes := db.user_rating_likes.filter (fun r =>
          !(r.user_id == user_id && r.rating_id == rating_id)) }
    else
      { db with user_rating_likes := db.user_rating_likes ++ [⟨user_id, rating_id⟩] }
  if db1.user_ratings.any (fun r => r.id == rating_id) then
    let cnt := ratingLikesCount db1 rating_id
    .ok ({ db1 with user_ratings := db1.user_ratings.map (fun r =>
        if r.id == rating_id then { r with likes_count := some cnt } else r) },
      !ex, cnt)
  else .error .fatal

/-! ### content_service.get_top_lists_by_engagement -/

/-- `COALESCE(x, 0)` -/
def coalesce0 (x : Option Nat) : Nat := x.getD 0

/-- `COALESCE(likes_count,0) + COALESCE(comments_count,0)` -/
def engagementScore (l : UserListRow) : Nat :=
  coalesce0 l.likes_count + coalesce0 l.comments_count

/-- Sort key of `ORDER BY engagement_score DESC, likes_count DESC NULLS LAST,
updated_at DESC`: under `DESC NULLS LAST` a NULL `likes_count` sorts after
every non-NULL value, so the key maps `some k` to `(1, k)` and `none` to
`(0, 0)` in the second and third components. -/
def listKey (l : UserListRow) : Nat × Nat × Nat × Nat :=
  (engagementScore l,
   match l.likes_count with | some _ => 1 | none => 0,
   coalesce0 l.likes_count,
   l.updated_at)

/-- Descending lexicographic comparison of 4-component keys: `lexGE4 a b`
holds when a row with key `a` may appear no later than one with key `b`. -/
def lexGE4 (a b : Nat × Nat × Nat × Nat) : Prop :=
  b.1 < a.1 ∨ (a.1 = b.1 ∧
    (b.2.1 < a.2.1 ∨ (a.2.1 = b.2.1 ∧
      (b.2.2.1 < a.2.2.1 ∨ (a.2.2.1 = b.2.2.1 ∧ b.2.2.2 ≤ a.2.2.2)))))

instance : DecidableRel lexGE4 := fun a b => by
  unfold lexGE4; infer_instance

/-- The `ORDER BY` relation of `get_top_lists_by_engagement`. -/
def topEngagementLE (a b : UserListRow) : Prop := lexGE4 (listKey a) (listKey b)

instance : DecidableRel topEngagementLE := fun a b => by
  unfold topEngagementLE; infer_instance

/-- `get_top_lists_by_engagement(limit)`: public lists joined to their
creators (`users.id` is the primary key, so the inner join keeps exactly the
public rows whose creator exists), sorted by the `ORDER BY` relation,
first `limit` rows.  The creator columns on each returned row are projections
of the joined user and do not affect order, so the model returns the list rows. -/
def get_top_lists_by_engagement (db : DB) (limit : Nat) : List UserListRow :=
  ((db.user_lists.filter (fun l =>
      l.is_public && db.users.any (fun u => u.id == l.user_id))).insertionSort
    topEngagementLE).take limit

/-! ### views.toggle_follow -/

/-- JSON response of the follow endpoint: HTTP status plus payload fields. -/
structure FollowResult where
  status : Nat
  success : Bool
  error : Option String
  followed : Option Bool
  followers : Option Int
deriving Repr, DecidableEq

/-- `views.toggle_follow(request)`: authenticate, read `username` from the
payload (absent or empty is falsy → 400), resolve the target case-insensitively
(404 if absent), reject self-follow with 400, then toggle the follow edge.
The unfollow branch deletes the found row by id and decrements both
denormalized counters by 1; the follow branch inserts and increments them by 1
(the `try/except` around those `UPDATE`s only matters when the columns are
absent from the schema, which the model's `users` rows always carry).
Finally the target's stored `followers_count` is read back. -/
def toggle_follow (db : DB) (session_user_id : Option Nat)
    (payload_username : Option String) : DB × FollowResult :=
  match session_user_id with
  | none => (db, ⟨401, false, some "Not authenticated", none, none⟩)
  | some user_id =>
    match payload_username with
    | none => (db, ⟨400, false, some "Missing username", none, none⟩)
    | some uname =>
      if uname == "" then (db, ⟨400, false, some "Missing username", none, none⟩)
      else
        match db.users.find? (fun u => pyLower u.username == pyLower uname) with
        | none => (db, ⟨404, false, some "User not found", none, none⟩)
        | some target =>
          if user_id == target.id then
            (db, ⟨400, false, some "Cannot follow yourself", none, none⟩)
          else
            match db.user_follows.find? (fun f =>
                f.follower_id == user_id && f.followee_id == target.id) with
            | some f =>
              let db1 : DB :=
                { db with user_follows := db.user_follows.filter (fun x =>
                    !(x.id == f.id)) }
              let db2 : DB :=
                { db1 with users := db1.users.map (fun u =>
                    if u.id == target.id then
                      { u with followers_count := u.followers_count - 1 }
                    else u) }
              let db3 : DB :=
                { db2 with users := db2.users.map (fun u =>
                    if u.id == user_id then
                      { u with following_count := u.following_count - 1 }
                    else u) }
              let fc : Int :=
                match db3.users.find? (fun u => u.id == target.id) with
                | some u => u.followers_count
                | none => 0
              (db3, ⟨200, true, none, some false, some fc⟩)
            | none =>
              let db1 : DB :=
                { db with
                  user_follows := db.user_follows ++ [⟨db.next_id, user_id, target.id⟩],
                  next_id := db.next_id + 1 }
              let db2 : DB :=
                { db1 with users := db1.users.map (fun u =>
                    if u.id == target.id then
                      { u with followers_count := u.followers_count + 1 }
                    else u) }
              let db3 : DB :=
                { db2 with users := db2.users.map (fun u =>
                    if u.id == user_id then
                      { u with following_count := u.following_count + 1 }
                    else u) }
              let fc : Int :=
                match db3.users.find? (fun u => u.id == target.id) with
                | some u => u.followers_count
                | none => 0
              (db3, ⟨200, true, none, some true, some fc⟩)

/-! ### Generic lemmas about membership tables -/

section TableLemmas

variable {α : Type}

lemma filter_eq_nil_of_any_false (l : List α) (p : α → Bool) (h : l.any p = false) :
    l.filter p = [] := by
  apply List.filter_eq_nil_iff.mpr
  intro a ha hpa
  have htrue : l.any p = true := List.any_eq_true.mpr ⟨a, ha, hpa⟩
  rw [htrue] at h
  cases h

lemma filter_not_eq_self (l : List α) (p : α → Bool) (h : l.any p = false) :
    l.filter (fun x => !(p x)) = l := by
  induction l with
  | nil => rfl
  | cons a t ih =>
    simp only [List.any_cons, Bool.or_eq_false_iff] at h
    simp [List.filter_cons, h.1, ih h.2]

lemma length_filter_append_single (l : List α) (q : α → Bool) (a : α)
    (hqa : q a = true) :
    ((l ++ [a]).filter q).length = (l.filter q).length + 1 := by
  simp [List.filter_append, hqa]

lemma any_append_single_self (l : List α) (p : α → Bool) (a : α)
    (hpa : p a = true) : (l ++ [a]).any p = true := by
  simp [List.any_append, hpa]

lemma length_filter_of_remove (l : List α) (p q : α → Bool) (a : α)
    (hN : l.Nodup) (ha : a ∈ l) (hpa : p a = true)
    (hq : ∀ x, p x = true → q x = true)
    (huniq : ∀ x ∈ l, p x = true → x = a) :
    ((l.filter (fun x => !(p x))).filter q).length + 1 = (l.filter q).length := by
  induction l with
  | nil => cases ha
  | cons b t ih =>
    simp only [List.filter_filter] at ih ⊢
    by_cases hpb : p b = true
    · have hba : b = a := huniq b (by simp) hpb
      subst hba
      have hnotmem : b ∉ t := (List.nodup_cons.mp hN).1
      have hanyt : t.any p = false := by
        cases hval : t.any p
        · rfl
        · rcases List.any_eq_true.mp hval with ⟨x, hxt, hpx⟩
          have hxb : x = b := huniq x (by simp [hxt]) hpx
          exact absurd (hxb ▸ hxt) hnotmem
      have hpt : ∀ x ∈ t, p x = false := by
        intro x hx
        cases hval : p x
        · rfl
        · exact absurd (List.any_eq_true.mpr ⟨x, hx, hval⟩) (by simp [hanyt])
      have hfeq : t.filter (fun x => q x && !(p x)) = t.filter q :=
        List.filter_congr (fun x hx => by simp [hpt x hx])
      simp [List.filter_cons, hpb, hq b hpb, hfeq]
    · have hpb' : p b = false := by
        cases hval : p b
        · rfl
        · exact absurd hval hpb
      have hat : a ∈ t := by
        rcases List.mem_cons.mp ha with hab | hat
        · exact absurd (hab ▸ hpa) (by simp [hpb'])
        · exact hat
      have ht := ih (List.nodup_cons.mp hN).2 hat
        (fun x hx hpx => huniq x (by simp [hx]) hpx)
      cases hqb : q b
      · simpa [List.filter_cons, hpb', hqb] using ht
      · simp [List.filter_cons, hpb', hqb]
        omega

lemma length_le_one_of_all_eq (m : List α) (hN : m.Nodup)
    (hall : ∀ x ∈ m, ∀ y ∈ m, x = y) : m.length ≤ 1 := by
  match m with
  | [] => simp
  | [x] => simp
  | x :: y :: t =>
    exfalso
    have hxy : x = y := hall x (by simp) y (by simp)
    subst hxy
    simp at hN

lemma mem_map_update (l : List α) (p : α → Bool) (upd : α → α)
    (y : α) (hy : y ∈ l.map (fun x => if p x then upd x else x)) :
    (∃ x ∈ l, p x = true ∧ y = upd x) ∨ (y ∈ l ∧ y ∈ l.map (fun x => if p x then upd x else x) ∧ p y = false) := by
  rcases List.mem_map.mp hy with ⟨x, hxl, hxe⟩
  by_cases hpx : p x = true
  · exact Or.inl ⟨x, hxl, hpx, by rw [← hxe]; simp [hpx]⟩
  · have hpx' : p x = false := by
      cases hval : p x
      · rfl
      · exact absurd hval hpx
    have hyx : y = x := by rw [← hxe]; simp [hpx']
    subst hyx
    exact Or.inr ⟨hxl, hy, hpx'⟩

lemma filter_map_update (l : List α) (p : α → Bool) (upd : α → α)
    (hupd : ∀ x, p x = true → p (upd x) = true) :
    (l.map (fun x => if p x then upd x else x)).filter p = (l.filter p).map upd := by
  induction l with
  | nil => rfl
  | cons a t ih =>
    by_cases hpa : p a = true
    · simp [List.filter_cons, hpa, hupd a hpa, ih]
    · have hpa' : p a = false := by
        cases hval : p a
        · rfl
        · exact absurd hval hpa
      simp [List.filter_cons, hpa', ih]

lemma find?_map_of_pred_inv (l : List α) (q : α → Bool) (f : α → α)
    (hf : ∀ x, q (f x) = q x) :
    (l.map f).find? q = (l.find? q).map f := by
  induction l with
  | nil => rfl
  | cons a t ih =>
    simp only [List.map_cons, List.find?]
    rw [hf a]
    cases hqa : q a
    · simpa using ih
    · simp

lemma any_map_of_pred_inv (l : List α) (q : α → Bool) (f : α → α)
    (hf : ∀ x, q (f x) = q x) :
    (l.map f).any q = l.any q := by
  induction l with
  | nil => rfl
  | cons a t ih => simp [hf, ih]

lemma dedup_map_length_of_nodup {β : Type} [DecidableEq β]
    (m : List α) (f : α → β) (hN : m.Nodup)
    (hinj : ∀ x ∈ m, ∀ y ∈ m, f x = f y → x = y) :
    ((m.map f).dedup).length = m.length := by
  have hnodup : (m.map f).Nodup := hN.map_on hinj
  rw [hnodup.dedup, List.length_map]

end TableLemmas

/-! ### Claim C5 — delete_list_comment authorization -/

/-- C5: `delete_list_comment` succeeds (deleting the comment and recomputing
the list's `comments_count`) if and only if the actor is the comment's author
or the owner of the comment's list; a nonexistent comment or list yields a
not-found `ValueError` before any permission check; any other actor receives
a `PermissionError` (error results carry no store, so nothing changes). -/
theorem claim5_delete_comment_permissions (db : DB) (now actor cid : Nat) :
    (db.list_comments.find? (fun c => c.id == cid) = none →
      delete_list_comment db now actor cid =
        .error (.valueError "Comment not found")) ∧
    (∀ c, db.list_comments.find? (fun c2 => c2.id == cid) = some c →
      db.user_lists.find? (fun l => l.id == c.list_id) = none →
      delete_list_comment db now actor cid =
        .error (.valueError "List not found")) ∧
    (∀ c l, db.list_comments.find? (fun c2 => c2.id == cid) = some c →
      db.user_lists.find? (fun l2 => l2.id == c.list_id) = some l →
      actor ≠ c.user_id → actor ≠ l.user_id →
      delete_list_comment db now actor cid =
        .error (.permissionError "Not allowed to delete this comment")) ∧
    ((∃ out, delete_list_comment db now actor cid = .ok out) ↔
      ∃ c, db.list_comments.find? (fun c2 => c2.id == cid) = some c ∧
        ∃ l, db.user_lists.find? (fun l2 => l2.id == c.list_id) = some l ∧
          (actor = c.user_id ∨ actor = l.user_id)) ∧
    (∀ c db' cnt lid, db.list_comments.find? (fun c2 => c2.id == cid) = some c →
      delete_list_comment db now actor cid = .ok (db', cnt, lid) →
      lid = c.list_id ∧ (∀ x ∈ db'.list_comments, ¬ x.id = cid) ∧
      cnt = listCommentsCount db' c.list_id ∧
      (∀ l ∈ db'.user_lists, l.id = c.list_id → l.comments_count = some cnt)) := by
  refine ⟨?_, ?_, ?_, ?_, ?_⟩
  · intro h
    simp [delete_list_comment, h]
  · intro c hc hl
    simp [delete_list_comment, hc, hl]
  · intro c l hc hl h1 h2
    have hb : (actor != c.user_id && actor != l.user_id) = true := by
      simp [bne_iff_ne, h1, h2]
    simp [delete_list_comment, hc, hl, hb]
  · constructor
    · rintro ⟨out, hout⟩
      rcases hc : db.list_comments.find? (fun c2 => c2.id == cid) with _ | c
      · simp [delete_list_comment, hc] at hout
      · rcases hl : db.user_lists.find? (fun l2 => l2.id == c.list_id) with _ | l
        · simp [delete_list_comment, hc, hl] at hout
        · refine ⟨c, hc, l, hl, ?_⟩
          by_cases hb : (actor != c.user_id && actor != l.user_id) = true
          · simp [delete_list_comment, hc, hl, hb] at hout
          · simp only [Bool.and_eq_true, bne_iff_ne, not_and, not_not] at hb
            by_cases h1 : actor = c.user_id
            · exact Or.inl h1
            · exact Or.inr (hb (by simpa using h1))
    · rintro ⟨c, hc, l, hl, hperm⟩
      have hb : (actor != c.user_id && actor != l.user_id) = false := by
        rcases hperm with h | h <;> simp [bne, h]
      simp [delete_list_comment, hc, hl, hb]
  · intro c db' cnt lid hc hok
    rcases hl : db.user_lists.find? (fun l2 => l2.id == c.list_id) with _ | l
    · simp [delete_list_comment, hc, hl] at hok
    · by_cases hb : (actor != c.user_id && actor != l.user_id) = true
      · simp [delete_list_comment, hc, hl, hb] at hok
      · have hb' : (actor != c.user_id && actor != l.user_id) = false := by
          cases hval : (actor != c.user_id && actor != l.user_id)
          · rfl
          · exact absurd hval hb
        simp only [delete_list_comment, hc, hl, hb', Bool.false_eq_true,
          if_false, Except.ok.injEq, Prod.mk.injEq] at hok
        obtain ⟨hdb', hcnt, hlid⟩ := hok
        subst hdb'
        refine ⟨hlid.symm, ?_, ?_, ?_⟩
        · intro x hx
          have hx' := List.mem_filter.mp hx
          simpa using hx'.2
        · exact hcnt.symm
        · intro l2 hl2 hid2
          rcases mem_map_update _ _ _ _ hl2 with ⟨x, _, _, hxe⟩ | ⟨_, _, hpc⟩
          · subst hxe
            simpa using hcnt
          · rw [hid2] at hpc
            simp at hpc

/-- Concrete store for the C5 witness: list 10 owned by user 1, one comment
(id 20) by user 2. -/
def exdb5 : DB :=
  ⟨[], [], [], [⟨10, 1, "L", none, true, some 0, some 1, 0, 0⟩], [], [],
   [⟨20, 10, 2, "hi", 0, 0⟩], [], [], [], 30⟩

theorem claim5_witness :
    delete_list_comment exdb5 7 3 20 =
      .error (.permissionError "Not allowed to delete this comment") ∧
    (∃ out, delete_list_comment exdb5 7 2 20 = .ok out) := by
  constructor
  · exact (claim5_delete_comment_permissions exdb5 7 3 20).2.2.1
      ⟨20, 10, 2, "hi", 0, 0⟩ ⟨10, 1, "L", none, true, some 0, some 1, 0, 0⟩
      (by decide) (by decide) (by decide) (by decide)
  · exact ((claim5_delete_comment_permissions exdb5 7 2 20).2.2.2.1).mpr
      ⟨⟨20, 10, 2, "hi", 0, 0⟩, by decide,
       ⟨10, 1, "L", none, true, some 0, some 1, 0, 0⟩, by decide, Or.inl rfl⟩

/-! ### Claim C6 — create_user_list validation -/

/-- C6: `create_user_list` rejects with a validation error (`ValueError`,
never a store error) and persists nothing (error results carry no store) when
the name is empty after trimming, longer than 200 characters after trimming,
or equal case-insensitively to an existing list name of the same owner; after
a successful creation a different user may still create a list of the same
name. -/
theorem claim6_create_list_validation (db : DB) (now u : Nat) (name : String)
    (desc : Option String) (pub : Bool) :
    (pyStrip name = "" →
      create_user_list db now u name desc pub =
        .error (.valueError "List name is required")) ∧
    (pyStrip name ≠ "" → (pyStrip name).length > 200 →
      create_user_list db now u name desc pub =
        .error (.valueError "List name must be 200 characters or fewer")) ∧
    (pyStrip name ≠ "" → (pyStrip name).length ≤ 200 →
      user_has_list_name db u (pyStrip name) = true →
      create_user_list db now u name desc pub =
        .error (.valueError "You already have a list with that name")) ∧
    (∀ u2, pyStrip name ≠ "" → (pyStrip name).length ≤ 200 →
      user_has_list_name db u (pyStrip name) = false →
      ∃ db' row, create_user_list db now u name desc pub = .ok (db', row) ∧
        row.user_id = u ∧ row.name = pyStrip name ∧
        db'.user_lists = db.user_lists ++ [row] ∧
        (u2 ≠ u → user_has_list_name db u2 (pyStrip name) = false →
          ∃ db2 row2, create_user_list db' now u2 name desc pub = .ok (db2, row2))) := by
  refine ⟨?_, ?_, ?_, ?_⟩
  · intro h
    simp [create_user_list, h]
  · intro h1 h2
    have hb : (pyStrip name == "") = false := by simp [h1]
    simp [create_user_list, hb, h2]
  · intro h1 h2 h3
    have hb : (pyStrip name == "") = false := by simp [h1]
    have hlen : ¬ (pyStrip name).length > 200 := by omega
    simp [create_user_list, hb, hlen, h3]
  · intro u2 h1 h2 h3
    have hb : (pyStrip name == "") = false := by simp [h1]
    have hlen : ¬ (pyStrip name).length > 200 := by omega
    have hok : create_user_list db now u name desc pub =
        .ok ({ db with
               user_lists := db.user_lists ++
                 [{ id := db.next_id, user_id := u, name := pyStrip name,
                    description := desc, is_public := pub, likes_count := none,
                    comments_count := none, created_at := now, updated_at := now }],
               next_id := db.next_id + 1 },
             { id := db.next_id, user_id := u, name := pyStrip name,
               description := desc, is_public := pub, likes_count := none,
               comments_count := none, created_at := now, updated_at := now }) := by
      simp [create_user_list, hb, hlen, h3]
    refine ⟨_, _, hok, rfl, rfl, rfl, ?_⟩
    intro hne h4
    have hneq : (u == u2) = false := by simp [Ne.symm hne]
    have h4' : user_has_list_name
        { db with
          user_lists := db.user_lists ++
            [{ id := db.next_id, user_id := u, name := pyStrip name,
               description := desc, is_public := pub, likes_count := none,
               comments_count := none, created_at := now, updated_at := now }],
          next_id := db.next_id + 1 } u2 (pyStrip name) = false := by
      simp only [user_has_list_name, List.any_append, Bool.or_eq_false_iff]
      constructor
      · simpa [user_has_list_name] using h4
      · simp [hneq]
    simp [create_user_list, hb, hlen, h4']

/-- Concrete store for the C6 witness: user 1 owns "My Favorites". -/
def exdb6 : DB :=
  ⟨[], [], [], [⟨10, 1, "My Favorites", none, true, none, none, 0, 0⟩],
   [], [], [], [], [], [], 11⟩

theorem claim6_witness :
    create_user_list exdb6 5 1 "my favorites" none true =
      .error (.valueError "You already have a list with that name") ∧
    (∃ db2 row2, create_user_list exdb6 5 2 "my favorites" none true =
      .ok (db2, row2)) := by
  constructor
  · exact (claim6_create_list_validation exdb6 5 1 "my favorites" none true).2.2.1
      (by decide) (by decide) (by decide)
  · obtain ⟨db', row, hok, _, _, _, _⟩ :=
      (claim6_create_list_validation exdb6 5 2 "my favorites" none true).2.2.2
      2 (by decide) (by decide) (by decide)
    exact ⟨db', row, hok⟩
/-! ### Claim C10 — toggle_like_list bumps updated_at -/

/-- C10: every call of `toggle_like_list` (liking or unliking) sets the
list's `updated_at` to the current timestamp, so — unlike a rating like — a
list like does move the list in orderings sorted by `updated_at`. -/
theorem claim10_list_like_bumps_updated_at (db : DB) (now u lid : Nat)
    (hL : db.user_lists.any (fun l => l.id == lid) = true) :
    (∃ out, toggle_like_list db now u lid = .ok out) ∧
    (∀ db' liked cnt, toggle_like_list db now u lid = .ok (db', liked, cnt) →
      liked = !(user_liked_list db u lid) ∧
      ∀ l ∈ db'.user_lists, l.id = lid → l.updated_at = now) := by
  by_cases hex : user_liked_list db u lid = true
  · refine ⟨by simp [toggle_like_list, hex, hL], ?_⟩
    intro db' liked cnt hok
    simp only [toggle_like_list, hex, if_true, hL, Except.ok.injEq,
      Prod.mk.injEq] at hok
    obtain ⟨hdb', hliked, _⟩ := hok
    refine ⟨by simp [hex, ← hliked], ?_⟩
    subst hdb'
    intro l hl hid
    rcases mem_map_update _ _ _ _ hl with ⟨x, _, _, hxe⟩ | ⟨_, _, hpc⟩
    · subst hxe; rfl
    · rw [hid] at hpc; simp at hpc
  · have hex' : user_liked_list db u lid = false := by
      cases hval : user_liked_list db u lid
      · rfl
      · exact absurd hval hex
    refine ⟨by simp [toggle_like_list, hex', hL], ?_⟩
    intro db' liked cnt hok
    simp only [toggle_like_list, hex', Bool.false_eq_true, if_false, hL,
      if_true, Except.ok.injEq, Prod.mk.injEq] at hok
    obtain ⟨hdb', hliked, _⟩ := hok
    refine ⟨by simp [hex', ← hliked], ?_⟩
    subst hdb'
    intro l hl hid
    rcases mem_map_update _ _ _ _ hl with ⟨x, _, _, hxe⟩ | ⟨_, _, hpc⟩
    · subst hxe; rfl
    · rw [hid] at hpc; simp at hpc

/-- Concrete store for the C10 witness: one list, not yet liked by user 2. -/
def exdb10 : DB :=
  ⟨[], [], [], [⟨10, 1, "L", none, true, some 0, some 0, 0, 3⟩],
   [], [], [], [], [], [], 11⟩

theorem claim10_witness :
    (∃ out, toggle_like_list exdb10 9 2 10 = .ok out) ∧
    (∀ db' liked cnt, toggle_like_list exdb10 9 2 10 = .ok (db', liked, cnt) →
      liked = !(user_liked_list exdb10 2 10) ∧
      ∀ l ∈ db'.user_lists, l.id = 10 → l.updated_at = 9) :=
  claim10_list_like_bumps_updated_at exdb10 9 2 10 (by decide)

/-! ### Claim C8 — self-follow rejection -/

/-- Concrete store showing the status code of a self-follow: user 1 follows
themself. -/
def exdb8 : DB := ⟨[], [], [], [], [], [], [], [], [], [⟨1, "alice", 0, 0⟩], 5⟩

/-- C8 counterexample: a self-follow is answered with HTTP status 400
("Cannot follow yourself"), not the claimed 403 / `PermissionError`
equivalent. -/
theorem claim8_self_follow_status_400 :
    (toggle_follow exdb8 (some 1) (some "alice")).2.status = 400 ∧
    (toggle_follow exdb8 (some 1) (some "alice")).2.status ≠ 403 ∧
    (toggle_follow exdb8 (some 1) (some "alice")).2.error =
      some "Cannot follow yourself" ∧
    (toggle_follow exdb8 (some 1) (some "alice")).1 = exdb8 := by
  decide

/-- C8 (amended): a self-follow is rejected before any mutation with a
400-status validation response ("Cannot follow yourself"), and the follows
relation and both denormalized counters are left unchanged (the store is
returned untouched). -/
theorem claim8_self_follow_rejected (db : DB) (u : Nat) (uname : String)
    (target : UserRow) (hne : uname ≠ "")
    (hfind : db.users.find? (fun x => pyLower x.username == pyLower uname) =
      some target)
    (hself : target.id = u) :
    toggle_follow db (some u) (some uname) =
      (db, ⟨400, false, some "Cannot follow yourself", none, none⟩) := by
  have hb : (uname == "") = false := by simp [hne]
  simp [toggle_follow, hb, hfind, hself]

theorem claim8_witness :
    toggle_follow exdb8 (some 1) (some "alice") =
      (exdb8, ⟨400, false, some "Cannot follow yourself", none, none⟩) :=
  claim8_self_follow_rejected exdb8 1 "alice" ⟨1, "alice", 0, 0⟩
    (by decide) (by decide) (by decide)

/-! ### Claim C1 — counters recomputed vs. ±1 deltas -/

/-- Concrete store for the follow counterexample: `alice`'s stored
`followers_count` (5) disagrees with the empty follows relation, as nothing
in the code reconciles the two. -/
def exdb1 : DB :=
  ⟨[], [], [], [], [], [], [], [], [],
   [⟨1, "alice", 5, 0⟩, ⟨2, "bob", 0, 7⟩], 10⟩

/-- C1 counterexample: `toggle_follow` maintains the follower counter by a
+1 delta, not by recomputation — after `bob` follows `alice` the stored
counter is 6 while the aggregation over the relation is 1. -/
theorem claim1_follow_counter_not_recomputed :
    ((toggle_follow exdb1 (some 2) (some "alice")).1.users.find?
        (fun u => u.id == 1)).map (fun u => u.followers_count) = some 6 ∧
    followersCountLive (toggle_follow exdb1 (some 2) (some "alice")).1 1 = 1 ∧
    (6 : Int) ≠ ((1 : Nat) : Int) := by
  decide

/-! ### Claim C7 — rating like leaves updated_at untouched -/

lemma any_filter_not_self {α : Type} (l : List α) (p : α → Bool) :
    ((l.filter (fun x => !(p x))).any p) = false := by
  cases hval : (l.filter (fun x => !(p x))).any p
  · rfl
  · rcases List.any_eq_true.mp hval with ⟨x, hmem, hpx⟩
    have hnp := (List.mem_filter.mp hmem).2
    rw [hpx] at hnp
    cases hnp

lemma map_frame_update {α β : Type} (l : List α) (p : α → Bool) (upd : α → α)
    (fr : α → β) (hfr : ∀ x, fr (upd x) = fr x) :
    (l.map (fun x => if p x then upd x else x)).map fr = l.map fr := by
  rw [List.map_map]
  apply List.map_congr_left
  intro x _
  by_cases hx : p x = true
  · simp [hx, hfr]
  · simp [hx]

/-- Every column of a rating row except the cached `likes_count`. -/
def ratingFrame (r : RatingRow) :
    Nat × Nat × Nat × Nat × Option String × Nat × Nat :=
  (r.id, r.user_id, r.content_id, r.score, r.review_text, r.rated_at, r.updated_at)

/-- C7: `toggle_like_review` changes only the rating's cached `likes_count`
(setting it to the aggregation over `user_rating_likes`); `updated_at`,
`score`, `review_text` and every other rating column — and every other
table except `user_rating_likes` — are unchanged, so a like never moves the
review in orderings sorted by `updated_at`. -/
theorem claim7_rating_like_frame (db : DB) (u rid : Nat)
    (hex : db.user_ratings.any (fun r => r.id == rid) = true) :
    (∃ out, toggle_like_review db u rid = .ok out) ∧
    (∀ db' liked cnt, toggle_like_review db u rid = .ok (db', liked, cnt) →
      db'.user_ratings.map ratingFrame = db.user_ratings.map ratingFrame ∧
      (∀ r ∈ db'.user_ratings, r.id = rid →
        r.likes_count = some (ratingLikesCount db' rid)) ∧
      cnt = ratingLikesCount db' rid ∧
      db'.content = db.content ∧ db'.user_lists = db.user_lists ∧
      db'.user_watched = db.user_watched) := by
  have hframe : ∀ c : Nat, ∀ x : RatingRow,
      ratingFrame { x with likes_count := some c } = ratingFrame x := by
    intro c x
    rfl
  by_cases hl : db.user_rating_likes.any
      (fun r => r.user_id == u && r.rating_id == rid) = true
  · refine ⟨by simp [toggle_like_review, hl, hex], ?_⟩
    intro db' liked cnt hok
    simp only [toggle_like_review, hl, if_true, hex, Except.ok.injEq,
      Prod.mk.injEq] at hok
    obtain ⟨hdb', _, hcnt⟩ := hok
    subst hdb'
    refine ⟨map_frame_update _ _ _ _ (hframe _), ?_, hcnt.symm, rfl, rfl, rfl⟩
    intro r hr hid
    rcases mem_map_update _ _ _ _ hr with ⟨x, _, _, hxe⟩ | ⟨_, _, hpc⟩
    · subst hxe; rfl
    · rw [hid] at hpc; simp at hpc
  · have hl' : db.user_rating_likes.any
        (fun r => r.user_id == u && r.rating_id == rid) = false := by
      cases hval : db.user_rating_likes.any
        (fun r => r.user_id == u && r.rating_id == rid)
      · rfl
      · exact absurd hval hl
    refine ⟨by simp [toggle_like_review, hl', hex], ?_⟩
    intro db' liked cnt hok
    simp only [toggle_like_review, hl', Bool.false_eq_true, if_false, hex,
      if_true, Except.ok.injEq, Prod.mk.injEq] at hok
    obtain ⟨hdb', _, hcnt⟩ := hok
    subst hdb'
    refine ⟨map_frame_update _ _ _ _ (hframe _), ?_, hcnt.symm, rfl, rfl, rfl⟩
    intro r hr hid
    rcases mem_map_update _ _ _ _ hr with ⟨x, _, _, hxe⟩ | ⟨_, _, hpc⟩
    · subst hxe; rfl
    · rw [hid] at hpc; simp at hpc

/-- Concrete store for the C7 witness: one rating (id 40) with a review. -/
def exdb7 : DB :=
  ⟨[⟨3, 100, "movie", "T", none, none, none, 1, 0, some 80, 1, 2⟩],
   [], [⟨40, 1, 3, 80, some "great", none, 2, 2⟩], [], [], [], [], [], [], [], 50⟩

theorem claim7_witness :
    (∃ out, toggle_like_review exdb7 2 40 = .ok out) ∧
    (∀ db' liked cnt, toggle_like_review exdb7 2 40 = .ok (db', liked, cnt) →
      db'.user_ratings.map ratingFrame = exdb7.user_ratings.map ratingFrame ∧
      (∀ r ∈ db'.user_ratings, r.id = 40 →
        r.likes_count = some (ratingLikesCount db' 40)) ∧
      cnt = ratingLikesCount db' 40 ∧
      db'.content = exdb7.content ∧ db'.user_lists = exdb7.user_lists ∧
      db'.user_watched = exdb7.user_watched) :=
  claim7_rating_like_frame exdb7 2 40 (by decide)


/-! ### Claim C3 — toggle_like_list is an involution -/

/-- Characterization of one `toggle_like_list` call on an existing list:
it toggles the membership row, returns liked=true exactly when it inserted,
and rewrites the list row with the recomputed count and the new timestamp. -/
lemma toggle_like_list_ok_spec (db : DB) (now u lid : Nat)
    (hL : db.user_lists.any (fun l => l.id == lid) = true) :
    (∃ out, toggle_like_list db now u lid = .ok out) ∧
    ∀ db' liked cnt, toggle_like_list db now u lid = .ok (db', liked, cnt) →
      liked = !(user_liked_list db u lid) ∧
      db'.list_likes = (if user_liked_list db u lid = true then
          db.list_likes.filter (fun r => !(r.user_id == u && r.list_id == lid))
        else db.list_likes ++ [⟨u, lid⟩]) ∧
      cnt = listLikesCount db' lid ∧
      db'.user_lists = db.user_lists.map (fun l =>
        if l.id == lid then
          { l with likes_count := some cnt, updated_at := now } else l) := by
  by_cases hex : user_liked_list db u lid = true
  · refine ⟨by simp [toggle_like_list, hex, hL], ?_⟩
    intro db' liked cnt hok
    simp only [toggle_like_list, hex, if_true, hL, Except.ok.injEq,
      Prod.mk.injEq] at hok
    obtain ⟨hdb', hliked, hcnt⟩ := hok
    subst hdb'
    subst hcnt
    exact ⟨by simp [hex, ← hliked], by rw [if_pos hex], rfl, rfl⟩
  · have hex' : user_liked_list db u lid = false := by
      cases hval : user_liked_list db u lid
      · rfl
      · exact absurd hval hex
    refine ⟨by simp [toggle_like_list, hex', hL], ?_⟩
    intro db' liked cnt hok
    simp only [toggle_like_list, hex', Bool.false_eq_true, if_false, hL,
      if_true, Except.ok.injEq, Prod.mk.injEq] at hok
    obtain ⟨hdb', hliked, hcnt⟩ := hok
    subst hdb'
    subst hcnt
    exact ⟨by simp [hex', ← hliked], by rw [if_neg (by simp [hex'])], rfl, rfl⟩

/-- C3: for every (user, list) pair and starting state, `toggle_like_list`
returns liked=true exactly when it inserted the membership and liked=false
when it deleted it, and applying it twice restores the liked/unliked state
and leaves `likes_count` at the aggregation over the original relation
(hence at the original stored value whenever that value was the derived
count). -/
theorem claim3_toggle_like_list_involution (db : DB) (now1 now2 u lid : Nat)
    (hN : db.list_likes.Nodup)
    (hL : db.user_lists.any (fun l => l.id == lid) = true) :
    (∃ out, toggle_like_list db now1 u lid = .ok out) ∧
    (∀ db1 liked1 c1, toggle_like_list db now1 u lid = .ok (db1, liked1, c1) →
      liked1 = !(user_liked_list db u lid) ∧
      (∃ out2, toggle_like_list db1 now2 u lid = .ok out2) ∧
      (∀ db2 liked2 c2, toggle_like_list db1 now2 u lid = .ok (db2, liked2, c2) →
        liked2 = user_liked_list db u lid ∧
        user_liked_list db2 u lid = user_liked_list db u lid ∧
        c2 = listLikesCount db lid ∧
        (∀ l ∈ db2.user_lists, l.id = lid →
          l.likes_count = some (listLikesCount db lid)) ∧
        (∀ l0 ∈ db.user_lists, l0.id = lid →
          l0.likes_count = some (listLikesCount db lid) →
          ∀ l ∈ db2.user_lists, l.id = lid → l.likes_count = l0.likes_count))) := by
  have hpair : ((⟨u, lid⟩ : ListLikeRow).user_id == u &&
      (⟨u, lid⟩ : ListLikeRow).list_id == lid) = true := by simp
  have hq : ∀ x : ListLikeRow, (x.user_id == u && x.list_id == lid) = true →
      (x.list_id == lid) = true := by
    intro x hx
    simp only [Bool.and_eq_true] at hx
    exact hx.2
  have huniq : ∀ x : ListLikeRow, (x.user_id == u && x.list_id == lid) = true →
      x = ⟨u, lid⟩ := by
    intro x hx
    cases x
    simp only [Bool.and_eq_true, beq_iff_eq] at hx
    simp [hx.1, hx.2]
  have hfid : ∀ (cv nv : Nat) (x : UserListRow),
      ((if x.id == lid then
          { x with likes_count := some cv, updated_at := nv } else x).id == lid) =
        (x.id == lid) := by
    intro cv nv x
    by_cases hx : (x.id == lid) = true <;> simp [hx]
  obtain ⟨hok1ex, hspec1⟩ := toggle_like_list_ok_spec db now1 u lid hL
  refine ⟨hok1ex, ?_⟩
  intro db1 liked1 c1 hok1
  obtain ⟨hliked1, hLL1, hcnt1, hUL1⟩ := hspec1 db1 liked1 c1 hok1
  have hL1 : db1.user_lists.any (fun l => l.id == lid) = true := by
    rw [hUL1, any_map_of_pred_inv _ _ _ (hfid _ _)]
    exact hL
  obtain ⟨hok2ex, hspec2⟩ := toggle_like_list_ok_spec db1 now2 u lid hL1
  refine ⟨hliked1, hok2ex, ?_⟩
  intro db2 liked2 c2 hok2
  obtain ⟨hliked2, hLL2, hcnt2, hUL2⟩ := hspec2 db2 liked2 c2 hok2
  by_cases hex : user_liked_list db u lid = true
  · -- present → deleted → re-inserted
    rw [if_pos hex] at hLL1
    have uld1 : user_liked_list db1 u lid = false := by
      rw [user_liked_list, hLL1]
      exact any_filter_not_self _ _
    rw [if_neg (by simp [uld1])] at hLL2
    have pmem : (⟨u, lid⟩ : ListLikeRow) ∈ db.list_likes := by
      rcases List.any_eq_true.mp hex with ⟨x, hxm, hpx⟩
      exact (huniq x hpx) ▸ hxm
    have hc2eq : listLikesCount db2 lid = listLikesCount db lid := by
      simp only [listLikesCount, hLL2, hLL1]
      rw [List.filter_append]
      simp only [List.length_append]
      have hone : ([(⟨u, lid⟩ : ListLikeRow)].filter
          (fun r => r.list_id == lid)).length = 1 := by
        simp [hq _ hpair]
      rw [hone]
      exact length_filter_of_remove db.list_likes _ _ _ hN pmem hpair hq
        (fun x _ hx => huniq x hx)
    have hstored : ∀ l ∈ db2.user_lists, l.id = lid →
        l.likes_count = some (listLikesCount db lid) := by
      intro l hl hid
      rw [hUL2] at hl
      rcases mem_map_update _ _ _ _ hl with ⟨x, _, _, hxe⟩ | ⟨_, _, hpc⟩
      · subst hxe
        simp [hcnt2.trans hc2eq]
      · rw [hid] at hpc
        simp at hpc
    refine ⟨by simp [hliked2, uld1, hex], ?_, ?_, hstored, ?_⟩
    · have huld2 : user_liked_list db2 u lid = true := by
        rw [user_liked_list, hLL2]
        exact any_append_single_self _ _ _ hpair
      rw [huld2, hex]
    · rw [hcnt2, hc2eq]
    · intro l0 _ _ h0 l hl hid
      rw [hstored l hl hid, h0]
  · -- absent → inserted → deleted again
    have hex' : user_liked_list db u lid = false := by
      cases hval : user_liked_list db u lid
      · rfl
      · exact absurd hval hex
    rw [if_neg (by simp [hex'])] at hLL1
    have uld1 : user_liked_list db1 u lid = true := by
      rw [user_liked_list, hLL1]
      exact any_append_single_self _ _ _ hpair
    rw [if_pos uld1] at hLL2
    have hfeq : db2.list_likes = db.list_likes := by
      rw [hLL2, hLL1, List.filter_append, filter_not_eq_self _ _ hex']
      simp [hpair]
    have hc2eq : listLikesCount db2 lid = listLikesCount db lid := by
      simp only [listLikesCount, hfeq]
    have hstored : ∀ l ∈ db2.user_lists, l.id = lid →
        l.likes_count = some (listLikesCount db lid) := by
      intro l hl hid
      rw [hUL2] at hl
      rcases mem_map_update _ _ _ _ hl with ⟨x, _, _, hxe⟩ | ⟨_, _, hpc⟩
      · subst hxe
        simp [hcnt2.trans hc2eq]
      · rw [hid] at hpc
        simp at hpc
    refine ⟨by simp [hliked2, uld1, hex'], ?_, ?_, hstored, ?_⟩
    · rw [user_liked_list, hfeq, hex']
      exact hex'
    · rw [hcnt2, hc2eq]
    · intro l0 _ _ h0 l hl hid
      rw [hstored l hl hid, h0]

/-- Concrete store for the C3 witness: list 10 (consistent counter 1) liked
by user 2. -/
def exdb3 : DB :=
  ⟨[], [], [], [⟨10, 1, "L", none, true, some 1, some 0, 0, 0⟩],
   [], [⟨2, 10⟩], [], [], [], [], 11⟩

theorem claim3_witness :
    (∃ out, toggle_like_list exdb3 4 2 10 = .ok out) ∧
    (∀ db1 liked1 c1, toggle_like_list exdb3 4 2 10 = .ok (db1, liked1, c1) →
      liked1 = !(user_liked_list exdb3 2 10) ∧
      (∃ out2, toggle_like_list db1 5 2 10 = .ok out2) ∧
      (∀ db2 liked2 c2, toggle_like_list db1 5 2 10 = .ok (db2, liked2, c2) →
        liked2 = user_liked_list exdb3 2 10 ∧
        user_liked_list db2 2 10 = user_liked_list exdb3 2 10 ∧
        c2 = listLikesCount exdb3 10 ∧
        (∀ l ∈ db2.user_lists, l.id = 10 →
          l.likes_count = some (listLikesCount exdb3 10)) ∧
        (∀ l0 ∈ exdb3.user_lists, l0.id = 10 →
          l0.likes_count = some (listLikesCount exdb3 10) →
          ∀ l ∈ db2.user_lists, l.id = 10 → l.likes_count = l0.likes_count))) :=
  claim3_toggle_like_list_involution exdb3 4 5 2 10 (by decide) (by decide)

/-! ### Claim C2 — mark_as_watched is idempotent -/

/-- Characterization of one `mark_as_watched` call when the content row
resolves: the watch row is inserted unless present, the resolved content
row's `watched_count` is recomputed, and the content still resolves to the
same id afterwards. -/
lemma mark_as_watched_ok_spec (db : DB) (now u t : Nat) (mt ti : String)
    (po : Option String) (c0 : Content)
    (hfind : db.content.find? (fun c => c.tmdb_id == t && c.media_type == mt) =
      some c0) :
    (mark_as_watched db now u t mt ti po).user_watched =
      (if db.user_watched.any (fun r => r.user_id == u && r.content_id == c0.id)
        then db.user_watched else db.user_watched ++ [⟨u, c0.id⟩]) ∧
    (∀ c ∈ (mark_as_watched db now u t mt ti po).content, c.id = c0.id →
      c.watched_count = watchedCount (mark_as_watched db now u t mt ti po) c0.id) ∧
    (∃ cA, (mark_as_watched db now u t mt ti po).content.find?
        (fun c => c.tmdb_id == t && c.media_type == mt) = some cA ∧
      cA.id = c0.id) := by
  have hgoc : get_or_create_content db now t mt ti po none none = (db, c0.id) := by
    simp [get_or_create_content, hfind]
  have hqinv : ∀ c : Content,
      (((if c.id == c0.id then
          { c with
            watched_count := watchedCount
              (if db.user_watched.any
                  (fun r => r.user_id == u && r.content_id == c0.id)
                then db else
                { db with user_watched := db.user_watched ++ [⟨u, c0.id⟩] }) c0.id,
            updated_at := now }
        else c).tmdb_id == t) &&
        ((if c.id == c0.id then
          { c with
            watched_count := watchedCount
              (if db.user_watched.any
                  (fun r => r.user_id == u && r.content_id == c0.id)
                then db else
                { db with user_watched := db.user_watched ++ [⟨u, c0.id⟩] }) c0.id,
            updated_at := now }
        else c).media_type == mt)) =
      (c.tmdb_id == t && c.media_type == mt) := by
    intro c
    by_cases hc : (c.id == c0.id) = true <;> simp [hc]
  by_cases hmem : db.user_watched.any
      (fun r => r.user_id == u && r.content_id == c0.id) = true
  · refine ⟨?_, ?_, ?_⟩
    · simp [mark_as_watched, hgoc, hmem]
    · intro c hc hid
      simp only [mark_as_watched, hgoc, hmem, if_true] at hc ⊢
      rcases mem_map_update _ _ _ _ hc with ⟨x, _, _, hxe⟩ | ⟨_, _, hpc⟩
      · subst hxe; rfl
      · rw [hid] at hpc; simp at hpc
    · simp only [mark_as_watched, hgoc, hmem, if_true]
      rw [find?_map_of_pred_inv _ _ _ (by simpa [hmem] using hqinv), hfind]
      exact ⟨_, rfl, by simp⟩
  · have hmem' : db.user_watched.any
        (fun r => r.user_id == u && r.content_id == c0.id) = false := by
      cases hval : db.user_watched.any
        (fun r => r.user_id == u && r.content_id == c0.id)
      · rfl
      · exact absurd hval hmem
    refine ⟨?_, ?_, ?_⟩
    · simp [mark_as_watched, hgoc, hmem']
    · intro c hc hid
      simp only [mark_as_watched, hgoc, hmem', Bool.false_eq_true, if_false] at hc ⊢
      rcases mem_map_update _ _ _ _ hc with ⟨x, _, _, hxe⟩ | ⟨_, _, hpc⟩
      · subst hxe; rfl
      · rw [hid] at hpc; simp at hpc
    · simp only [mark_as_watched, hgoc, hmem', Bool.false_eq_true, if_false]
      rw [find?_map_of_pred_inv _ _ _ (by simpa [hmem'] using hqinv), hfind]
      exact ⟨_, rfl, by simp⟩

/-- C2: calling `mark_as_watched` twice for the same (user, content) pair
leaves exactly one membership row in `user_watched`, and the content's
`watched_count` equals the number of distinct users with a watch row for it. -/
theorem claim2_mark_watched_idempotent (db : DB) (now1 now2 u t : Nat)
    (mt ti : String) (po : Option String) (c0 : Content)
    (hfind : db.content.find? (fun c => c.tmdb_id == t && c.media_type == mt) =
      some c0)
    (hN : db.user_watched.Nodup) :
    ((mark_as_watched (mark_as_watched db now1 u t mt ti po) now2 u t mt ti
        po).user_watched.filter
        (fun r => r.user_id == u && r.content_id == c0.id)).length = 1 ∧
    ∀ c ∈ (mark_as_watched (mark_as_watched db now1 u t mt ti po) now2 u t mt
        ti po).content, c.id = c0.id →
      c.watched_count =
        (((mark_as_watched (mark_as_watched db now1 u t mt ti po) now2 u t mt
          ti po).user_watched.filter
          (fun r => r.content_id == c0.id)).map (fun r => r.user_id)).dedup.length := by
  have hpairW : ((⟨u, c0.id⟩ : WatchRow).user_id == u &&
      (⟨u, c0.id⟩ : WatchRow).content_id == c0.id) = true := by simp
  have huniqW : ∀ x : WatchRow,
      (x.user_id == u && x.content_id == c0.id) = true → x = ⟨u, c0.id⟩ := by
    intro x hx
    cases x
    simp only [Bool.and_eq_true, beq_iff_eq] at hx
    simp [hx.1, hx.2]
  obtain ⟨hUW1, hWC1, cA, hfind1, hcA⟩ :=
    mark_as_watched_ok_spec db now1 u t mt ti po c0 hfind
  obtain ⟨hUW2, hWC2, hfind2⟩ :=
    mark_as_watched_ok_spec (mark_as_watched db now1 u t mt ti po) now2 u t mt
      ti po cA hfind1
  simp only [hcA] at hUW2 hWC2
  have hA1any : (mark_as_watched db now1 u t mt ti po).user_watched.any
      (fun r => r.user_id == u && r.content_id == c0.id) = true := by
    rw [hUW1]
    by_cases hmem0 : db.user_watched.any
        (fun r => r.user_id == u && r.content_id == c0.id) = true
    · rw [if_pos hmem0]
      exact hmem0
    · rw [if_neg hmem0]
      exact any_append_single_self _ _ _ hpairW
  rw [if_pos hA1any] at hUW2
  have hBN : (mark_as_watched (mark_as_watched db now1 u t mt ti po) now2 u t
      mt ti po).user_watched.Nodup := by
    rw [hUW2, hUW1]
    by_cases hmem0 : db.user_watched.any
        (fun r => r.user_id == u && r.content_id == c0.id) = true
    · rw [if_pos hmem0]
      exact hN
    · rw [if_neg hmem0]
      have hnot : (⟨u, c0.id⟩ : WatchRow) ∉ db.user_watched := by
        intro hmem
        exact hmem0 (List.any_eq_true.mpr ⟨_, hmem, hpairW⟩)
      exact ((List.perm_append_singleton _ _).nodup_iff).mpr
        (List.nodup_cons.mpr ⟨hnot, hN⟩)
  constructor
  · rw [hUW2, hUW1]
    by_cases hmem0 : db.user_watched.any
        (fun r => r.user_id == u && r.content_id == c0.id) = true
    · rw [if_pos hmem0]
      have hall : ∀ x ∈ db.user_watched.filter
          (fun r => r.user_id == u && r.content_id == c0.id),
          ∀ y ∈ db.user_watched.filter
          (fun r => r.user_id == u && r.content_id == c0.id), x = y := by
        intro a ha b hb
        rw [huniqW a (List.mem_filter.mp ha).2, huniqW b (List.mem_filter.mp hb).2]
      have hle := length_le_one_of_all_eq _ (hN.filter _) hall
      rcases List.any_eq_true.mp hmem0 with ⟨x, hxm, hpx⟩
      have hxf : x ∈ db.user_watched.filter
          (fun r => r.user_id == u && r.content_id == c0.id) :=
        List.mem_filter.mpr ⟨hxm, hpx⟩
      have hge := List.length_pos_of_mem hxf
      omega
    · rw [if_neg hmem0]
      have hmem0' : db.user_watched.any
          (fun r => r.user_id == u && r.content_id == c0.id) = false := by
        cases hval : db.user_watched.any
          (fun r => r.user_id == u && r.content_id == c0.id)
        · rfl
        · exact absurd hval hmem0
      rw [List.filter_append, filter_eq_nil_of_any_false _ _ hmem0']
      simp [hpairW]
  · intro c hc hid
    have hinj : ∀ x ∈ (mark_as_watched (mark_as_watched db now1 u t mt ti po)
        now2 u t mt ti po).user_watched.filter
        (fun r => r.content_id == c0.id),
        ∀ y ∈ (mark_as_watched (mark_as_watched db now1 u t mt ti po)
        now2 u t mt ti po).user_watched.filter
        (fun r => r.content_id == c0.id),
        x.user_id = y.user_id → x = y := by
      intro a ha b hb hab
      have ha2 := (List.mem_filter.mp ha).2
      have hb2 := (List.mem_filter.mp hb).2
      cases a
      cases b
      simp only [beq_iff_eq] at ha2 hb2
      simp only at hab
      simp [hab, ha2, hb2]
    have hded := dedup_map_length_of_nodup _ (fun r : WatchRow => r.user_id)
      (hBN.filter _) hinj
    rw [hded]
    exact hWC2 c hc hid

/-- Concrete content row and store for the C2 witness. -/
def exc2 : Content := ⟨3, 100, "movie", "T", none, none, none, 0, 0, none, 0, 0⟩

def exdb2 : DB := ⟨[exc2], [], [], [], [], [], [], [], [], [], 4⟩

theorem claim2_witness :
    ((mark_as_watched (mark_as_watched exdb2 1 7 100 "movie" "T" none) 2 7 100
        "movie" "T" none).user_watched.filter
        (fun r => r.user_id == 7 && r.content_id == exc2.id)).length = 1 ∧
    ∀ c ∈ (mark_as_watched (mark_as_watched exdb2 1 7 100 "movie" "T" none) 2 7
        100 "movie" "T" none).content, c.id = exc2.id →
      c.watched_count =
        (((mark_as_watched (mark_as_watched exdb2 1 7 100 "movie" "T" none) 2 7
          100 "movie" "T" none).user_watched.filter
          (fun r => r.content_id == exc2.id)).map
          (fun r => r.user_id)).dedup.length :=
  claim2_mark_watched_idempotent exdb2 1 2 7 100 "movie" "T" none exc2
    (by decide) (by decide)

/-! ### Claim C4 — add_rating is an upsert -/

lemma length_le_one_of_pairwise_not {α : Type} (m : List α) (R : α → α → Prop)
    (hP : m.Pairwise R) (hall : ∀ x ∈ m, ∀ y ∈ m, ¬ R x y) : m.length ≤ 1 := by
  match m, hP with
  | [], _ => simp
  | [x], _ => simp
  | x :: y :: r, hP =>
    exact absurd ((List.pairwise_cons.mp hP).1 y (by simp))
      (hall x (by simp) y (by simp))

/-- Characterization of one `add_rating` call when the content row resolves:
the rating table is upserted keyed on (user, content), `avg_score` and
`total_scores` on the resolved content row are recomputed, and the content
still resolves to the same id. -/
lemma add_rating_ok_spec (db : DB) (now u t : Nat) (mt ti : String)
    (s : Nat) (rt po : Option String) (c0 : Content)
    (hfind : db.content.find? (fun c => c.tmdb_id == t && c.media_type == mt) =
      some c0) :
    (add_rating db now u t mt ti s rt po).user_ratings =
      (if db.user_ratings.any (fun r => r.user_id == u && r.content_id == c0.id)
        then db.user_ratings.map (fun r =>
          if r.user_id == u && r.content_id == c0.id then
            { r with score := s, review_text := rt, updated_at := now } else r)
        else db.user_ratings ++
          [{ id := db.next_id, user_id := u, content_id := c0.id, score := s,
             review_text := rt, likes_count := none, rated_at := now,
             updated_at := now }]) ∧
    (∀ c ∈ (add_rating db now u t mt ti s rt po).content, c.id = c0.id →
      c.avg_score = avgScore (add_rating db now u t mt ti s rt po) c0.id ∧
      c.total_scores =
        (ratingRowsFor (add_rating db now u t mt ti s rt po) c0.id).length) ∧
    (∃ cA, (add_rating db now u t mt ti s rt po).content.find?
        (fun c => c.tmdb_id == t && c.media_type == mt) = some cA ∧
      cA.id = c0.id) := by
  have hgoc : get_or_create_content db now t mt ti po none none = (db, c0.id) := by
    simp [get_or_create_content, hfind]
  have hf : ∀ (A : Option Rat) (B nv : Nat) (c : Content),
      (((if c.id == c0.id then
          { c with avg_score := A, total_scores := B, updated_at := nv }
        else c).tmdb_id == t) &&
       ((if c.id == c0.id then
          { c with avg_score := A, total_scores := B, updated_at := nv }
        else c).media_type == mt)) =
      ((c.tmdb_id == t) && (c.media_type == mt)) := by
    intro A B nv c
    by_cases hc : (c.id == c0.id) = true <;> simp [hc]
  by_cases hmem : db.user_ratings.any
      (fun r => r.user_id == u && r.content_id == c0.id) = true
  · refine ⟨?_, ?_, ?_⟩
    · rw [if_pos hmem]
      simp [add_rating, hgoc, hmem]
    · intro c hc hid
      simp only [add_rating, hgoc, hmem, if_true] at hc ⊢
      rcases mem_map_update _ _ _ _ hc with ⟨x, _, _, hxe⟩ | ⟨_, _, hpc⟩
      · subst hxe
        exact ⟨rfl, rfl⟩
      · rw [hid] at hpc
        simp at hpc
    · simp only [add_rating, hgoc, hmem, if_true]
      rw [find?_map_of_pred_inv _ _ _ (hf _ _ _), hfind]
      exact ⟨_, rfl, by simp⟩
  · have hmem' : db.user_ratings.any
        (fun r => r.user_id == u && r.content_id == c0.id) = false := by
      cases hval : db.user_ratings.any
        (fun r => r.user_id == u && r.content_id == c0.id)
      · rfl
      · exact absurd hval hmem
    refine ⟨?_, ?_, ?_⟩
    · rw [if_neg hmem]
      simp [add_rating, hgoc, hmem']
    · intro c hc hid
      simp only [add_rating, hgoc, hmem', Bool.false_eq_true, if_false] at hc ⊢
      rcases mem_map_update _ _ _ _ hc with ⟨x, _, _, hxe⟩ | ⟨_, _, hpc⟩
      · subst hxe
        exact ⟨rfl, rfl⟩
      · rw [hid] at hpc
        simp at hpc
    · simp only [add_rating, hgoc, hmem', Bool.false_eq_true, if_false]
      rw [find?_map_of_pred_inv _ _ _ (hf _ _ _), hfind]
      exact ⟨_, rfl, by simp⟩

/-- C4: submitting a rating when one already exists for the (user, content)
pair overwrites the row's score and review text instead of adding a row —
after two submissions exactly one rating row exists for the pair, carrying
the latest score/review, and the content's `avg_score`/`total_scores` are
the aggregation over the current rows (one latest score per user). -/
theorem claim4_upsert_rating (db : DB) (now1 now2 u t : Nat) (mt ti : String)
    (s1 s2 : Nat) (rt1 rt2 po : Option String) (c0 : Content)
    (hfind : db.content.find? (fun c => c.tmdb_id == t && c.media_type == mt) =
      some c0)
    (hU : db.user_ratings.Pairwise
      (fun a b => ¬(a.user_id = b.user_id ∧ a.content_id = b.content_id))) :
    ((add_rating (add_rating db now1 u t mt ti s1 rt1 po) now2 u t mt ti s2 rt2
        po).user_ratings.filter
        (fun r => r.user_id == u && r.content_id == c0.id)).length = 1 ∧
    (∀ r ∈ (add_rating (add_rating db now1 u t mt ti s1 rt1 po) now2 u t mt ti
        s2 rt2 po).user_ratings,
      (r.user_id == u && r.content_id == c0.id) = true →
      r.score = s2 ∧ r.review_text = rt2) ∧
    (∀ c ∈ (add_rating (add_rating db now1 u t mt ti s1 rt1 po) now2 u t mt ti
        s2 rt2 po).content, c.id = c0.id →
      c.avg_score = avgScore (add_rating (add_rating db now1 u t mt ti s1 rt1
        po) now2 u t mt ti s2 rt2 po) c0.id ∧
      c.total_scores = (ratingRowsFor (add_rating (add_rating db now1 u t mt ti
        s1 rt1 po) now2 u t mt ti s2 rt2 po) c0.id).length) := by
  obtain ⟨hUR1, hAV1, cA, hfind1, hcA⟩ :=
    add_rating_ok_spec db now1 u t mt ti s1 rt1 po c0 hfind
  obtain ⟨hUR2, hAV2, hfind2⟩ :=
    add_rating_ok_spec (add_rating db now1 u t mt ti s1 rt1 po) now2 u t mt ti
      s2 rt2 po cA hfind1
  simp only [hcA] at hUR2 hAV2
  have h1 : ((add_rating db now1 u t mt ti s1 rt1 po).user_ratings.filter
      (fun r => r.user_id == u && r.content_id == c0.id)).length = 1 := by
    rw [hUR1]
    by_cases hmem0 : db.user_ratings.any
        (fun r => r.user_id == u && r.content_id == c0.id) = true
    · rw [if_pos hmem0, filter_map_update _ _ _ (fun r h => by simpa using h), List.length_map]
      have hall : ∀ x ∈ db.user_ratings.filter
          (fun r => r.user_id == u && r.content_id == c0.id),
          ∀ y ∈ db.user_ratings.filter
          (fun r => r.user_id == u && r.content_id == c0.id),
          ¬ ¬(x.user_id = y.user_id ∧ x.content_id = y.content_id) := by
        intro x hx y hy
        have hx2 := (List.mem_filter.mp hx).2
        have hy2 := (List.mem_filter.mp hy).2
        simp only [Bool.and_eq_true, beq_iff_eq] at hx2 hy2
        exact not_not_intro ⟨hx2.1.trans hy2.1.symm, hx2.2.trans hy2.2.symm⟩
      have hle := length_le_one_of_pairwise_not _ _ (hU.filter _) hall
      rcases List.any_eq_true.mp hmem0 with ⟨x, hxm, hpx⟩
      have hxf : x ∈ db.user_ratings.filter
          (fun r => r.user_id == u && r.content_id == c0.id) :=
        List.mem_filter.mpr ⟨hxm, hpx⟩
      have hge := List.length_pos_of_mem hxf
      omega
    · have hmem0' : db.user_ratings.any
          (fun r => r.user_id == u && r.content_id == c0.id) = false := by
        cases hval : db.user_ratings.any
          (fun r => r.user_id == u && r.content_id == c0.id)
        · rfl
        · exact absurd hval hmem0
      rw [if_neg hmem0, List.filter_append,
        filter_eq_nil_of_any_false _ _ hmem0']
      simp
  have hmem1 : (add_rating db now1 u t mt ti s1 rt1 po).user_ratings.any
      (fun r => r.user_id == u && r.content_id == c0.id) = true := by
    have hpos : 0 < ((add_rating db now1 u t mt ti s1 rt1 po).user_ratings.filter
        (fun r => r.user_id == u && r.content_id == c0.id)).length := by
      omega
    rcases List.exists_mem_of_length_pos hpos with ⟨x, hx⟩
    have hx' := List.mem_filter.mp hx
    exact List.any_eq_true.mpr ⟨x, hx'.1, hx'.2⟩
  rw [if_pos hmem1] at hUR2
  refine ⟨?_, ?_, hAV2⟩
  · rw [hUR2, filter_map_update _ _ _ (fun r h => by simpa using h), List.length_map]
    exact h1
  · intro r hr hp
    have hrf : r ∈ ((add_rating db now1 u t mt ti s1 rt1 po).user_ratings.map
        (fun r => if r.user_id == u && r.content_id == c0.id then
          { r with score := s2, review_text := rt2, updated_at := now2 }
        else r)).filter
        (fun r => r.user_id == u && r.content_id == c0.id) := by
      rw [← hUR2]
      exact List.mem_filter.mpr ⟨hr, hp⟩
    rw [filter_map_update _ _ _ (fun r h => by simpa using h)] at hrf
    rcases List.mem_map.mp hrf with ⟨x, _, hxe⟩
    subst hxe
    exact ⟨rfl, rfl⟩

/-- Concrete content row and store for the C4 witness (score 80 then 60). -/
def exc4 : Content := ⟨3, 100, "movie", "T", none, none, none, 0, 0, none, 0, 0⟩

def exdb4 : DB := ⟨[exc4], [], [], [], [], [], [], [], [], [], 4⟩

theorem claim4_witness :
    (((add_rating (add_rating exdb4 1 7 100 "movie" "T" 80 none none) 2 7 100
        "movie" "T" 60 none none).user_ratings.filter
        (fun r => r.user_id == 7 && r.content_id == exc4.id)).length = 1 ∧
      (∀ r ∈ (add_rating (add_rating exdb4 1 7 100 "movie" "T" 80 none none) 2
          7 100 "movie" "T" 60 none none).user_ratings,
        (r.user_id == 7 && r.content_id == exc4.id) = true →
        r.score = 60 ∧ r.review_text = none) ∧
      (∀ c ∈ (add_rating (add_rating exdb4 1 7 100 "movie" "T" 80 none none) 2
          7 100 "movie" "T" 60 none none).content, c.id = exc4.id →
        c.avg_score = avgScore (add_rating (add_rating exdb4 1 7 100 "movie"
          "T" 80 none none) 2 7 100 "movie" "T" 60 none none) exc4.id ∧
        c.total_scores = (ratingRowsFor (add_rating (add_rating exdb4 1 7 100
          "movie" "T" 80 none none) 2 7 100 "movie" "T" 60 none none)
          exc4.id).length)) ∧
    (ratingRowsFor (add_rating (add_rating exdb4 1 7 100 "movie" "T" 80 none
      none) 2 7 100 "movie" "T" 60 none none) exc4.id).map
      (fun r => r.score) = [60] :=
  ⟨claim4_upsert_rating exdb4 1 2 7 100 "movie" "T" 80 60 none none none exc4
    (by decide) (by decide), by decide⟩

/-! ### Claim C1 — counters are recomputed, except the follow counters -/

/-- C1 (amended): every counter-maintaining mutation of the service layer —
mark watched, upsert rating, add item to list, toggle list like, toggle
rating like, add comment, delete comment — recomputes the affected
denormalized counter as a full aggregation (COUNT/AVG) over the underlying
relation table; only `toggle_follow` maintains its two follower/following
counters by ±1 deltas instead (see the counterexample theorem). -/
theorem claim1_counters_recomputed_except_follow :
    (∀ (db : DB) (now u t : Nat) (mt ti : String) (po : Option String),
      ∀ c ∈ (mark_as_watched db now u t mt ti po).content,
        c.id = (get_or_create_content db now t mt ti po none none).2 →
        c.watched_count = watchedCount (mark_as_watched db now u t mt ti po) c.id) ∧
    (∀ (db : DB) (now u t : Nat) (mt ti : String) (s : Nat)
        (rt po : Option String),
      ∀ c ∈ (add_rating db now u t mt ti s rt po).content,
        c.id = (get_or_create_content db now t mt ti po none none).2 →
        c.avg_score = avgScore (add_rating db now u t mt ti s rt po) c.id ∧
        c.total_scores = (ratingRowsFor (add_rating db now u t mt ti s rt po) c.id).length) ∧
    (∀ (db : DB) (now lid t : Nat) (mt ti : String) (po : Option String),
      ∀ c ∈ (add_to_list db now lid t mt ti po).content,
        c.id = (get_or_create_content db now t mt ti po none none).2 →
        c.list_count = listItemCount (add_to_list db now lid t mt ti po) c.id) ∧
    (∀ (db : DB) (now u lid : Nat) (db' : DB) (liked : Bool) (cnt : Nat),
      toggle_like_list db now u lid = .ok (db', liked, cnt) →
      cnt = listLikesCount db' lid ∧
      ∀ l ∈ db'.user_lists, l.id = lid →
        l.likes_count = some (listLikesCount db' lid)) ∧
    (∀ (db : DB) (u rid : Nat) (db' : DB) (liked : Bool) (cnt : Nat),
      toggle_like_review db u rid = .ok (db', liked, cnt) →
      cnt = ratingLikesCount db' rid ∧
      ∀ r ∈ db'.user_ratings, r.id = rid →
        r.likes_count = some (ratingLikesCount db' rid)) ∧
    (∀ (db : DB) (now u lid : Nat) (txt : String) (db' : DB) (cmid cnt : Nat),
      add_list_comment db now u lid txt = .ok (db', cmid, cnt) →
      cnt = listCommentsCount db' lid ∧
      ∀ l ∈ db'.user_lists, l.id = lid →
        l.comments_count = some (listCommentsCount db' lid)) ∧
    (∀ (db : DB) (now actor cmid : Nat) (db' : DB) (cnt lid : Nat),
      delete_list_comment db now actor cmid = .ok (db', cnt, lid) →
      cnt = listCommentsCount db' lid ∧
      ∀ l ∈ db'.user_lists, l.id = lid →
        l.comments_count = some (listCommentsCount db' lid)) := by
  refine ⟨?_, ?_, ?_, ?_, ?_, ?_, ?_⟩
  · intro db now u t mt ti po c hc hid
    simp only [mark_as_watched] at hc
    rcases mem_map_update _ _ _ _ hc with ⟨x, _, _, hxe⟩ | ⟨_, _, hpc⟩
    · subst hxe
      rw [hid]
      rfl
    · rw [hid] at hpc
      simp at hpc
  · intro db now u t mt ti s rt po c hc hid
    simp only [add_rating] at hc
    rcases mem_map_update _ _ _ _ hc with ⟨x, _, _, hxe⟩ | ⟨_, _, hpc⟩
    · subst hxe
      rw [hid]
      exact ⟨rfl, rfl⟩
    · rw [hid] at hpc
      simp at hpc
  · intro db now lid t mt ti po c hc hid
    simp only [add_to_list] at hc
    rcases mem_map_update _ _ _ _ hc with ⟨x, _, _, hxe⟩ | ⟨_, _, hpc⟩
    · subst hxe
      rw [hid]
      rfl
    · rw [hid] at hpc
      simp at hpc
  · intro db now u lid db' liked cnt hok
    by_cases hL : db.user_lists.any (fun l => l.id == lid) = true
    · by_cases hex : user_liked_list db u lid = true
      · simp only [toggle_like_list, hex, if_true, hL, Except.ok.injEq,
          Prod.mk.injEq] at hok
        obtain ⟨hdb', _, hcnt⟩ := hok
        subst hdb'
        subst hcnt
        refine ⟨rfl, ?_⟩
        intro l hl hid
        rcases mem_map_update _ _ _ _ hl with ⟨x, _, _, hxe⟩ | ⟨_, _, hpc⟩
        · subst hxe
          rfl
        · rw [hid] at hpc
          simp at hpc
      · have hex' : user_liked_list db u lid = false := by
          cases hval : user_liked_list db u lid
          · rfl
          · exact absurd hval hex
        simp only [toggle_like_list, hex', Bool.false_eq_true, if_false, hL,
          if_true, Except.ok.injEq, Prod.mk.injEq] at hok
        obtain ⟨hdb', _, hcnt⟩ := hok
        subst hdb'
        subst hcnt
        refine ⟨rfl, ?_⟩
        intro l hl hid
        rcases mem_map_update _ _ _ _ hl with ⟨x, _, _, hxe⟩ | ⟨_, _, hpc⟩
        · subst hxe
          rfl
        · rw [hid] at hpc
          simp at hpc
    · have hL' : db.user_lists.any (fun l => l.id == lid) = false := by
        cases hval : db.user_lists.any (fun l => l.id == lid)
        · rfl
        · exact absurd hval hL
      by_cases hex : user_liked_list db u lid = true <;>
        simp [toggle_like_list, hex, hL'] at hok
  · intro db u rid db' liked cnt hok
    by_cases hR : db.user_ratings.any (fun r => r.id == rid) = true
    · by_cases hex : db.user_rating_likes.any
          (fun r => r.user_id == u && r.rating_id == rid) = true
      · simp only [toggle_like_review, hex, if_true, hR, Except.ok.injEq,
          Prod.mk.injEq] at hok
        obtain ⟨hdb', _, hcnt⟩ := hok
        subst hdb'
        subst hcnt
        refine ⟨rfl, ?_⟩
        intro r hr hid
        rcases mem_map_update _ _ _ _ hr with ⟨x, _, _, hxe⟩ | ⟨_, _, hpc⟩
        · subst hxe
          rfl
        · rw [hid] at hpc
          simp at hpc
      · have hex' : db.user_rating_likes.any
            (fun r => r.user_id == u && r.rating_id == rid) = false := by
          cases hval : db.user_rating_likes.any
            (fun r => r.user_id == u && r.rating_id == rid)
          · rfl
          · exact absurd hval hex
        simp only [toggle_like_review, hex', Bool.false_eq_true, if_false, hR,
          if_true, Except.ok.injEq, Prod.mk.injEq] at hok
        obtain ⟨hdb', _, hcnt⟩ := hok
        subst hdb'
        subst hcnt
        refine ⟨rfl, ?_⟩
        intro r hr hid
        rcases mem_map_update _ _ _ _ hr with ⟨x, _, _, hxe⟩ | ⟨_, _, hpc⟩
        · subst hxe
          rfl
        · rw [hid] at hpc
          simp at hpc
    · have hR' : db.user_ratings.any (fun r => r.id == rid) = false := by
        cases hval : db.user_ratings.any (fun r => r.id == rid)
        · rfl
        · exact absurd hval hR
      by_cases hex : db.user_rating_likes.any
          (fun r => r.user_id == u && r.rating_id == rid) = true <;>
        simp [toggle_like_review, hex, hR'] at hok
  · intro db now u lid txt db' cmid cnt hok
    by_cases hemp : (pyStrip txt == "") = true
    · simp [add_list_comment, hemp] at hok
    · have hemp' : (pyStrip txt == "") = false := by
        cases hval : (pyStrip txt == "")
        · rfl
        · exact absurd hval hemp
      by_cases hL : (db.user_lists.any (fun l => l.id == lid)) = true
      · simp only [add_list_comment, hemp', Bool.false_eq_true, if_false, hL,
          if_true, Except.ok.injEq, Prod.mk.injEq] at hok
        obtain ⟨hdb', _, hcnt⟩ := hok
        subst hdb'
        subst hcnt
        refine ⟨rfl, ?_⟩
        intro l hl hid
        rcases mem_map_update _ _ _ _ hl with ⟨x, _, _, hxe⟩ | ⟨_, _, hpc⟩
        · subst hxe
          rfl
        · rw [hid] at hpc
          simp at hpc
      · have hL' : (db.user_lists.any (fun l => l.id == lid)) = false := by
          cases hval : db.user_lists.any (fun l => l.id == lid)
          · rfl
          · exact absurd hval hL
        simp [add_list_comment, hemp', hL'] at hok
  · intro db now actor cmid db' cnt lid hok
    rcases hc : db.list_comments.find? (fun c => c.id == cmid) with _ | c
    · simp [delete_list_comment, hc] at hok
    · rcases hl : db.user_lists.find? (fun l => l.id == c.list_id) with _ | l
      · simp [delete_list_comment, hc, hl] at hok
      · by_cases hb : (actor != c.user_id && actor != l.user_id) = true
        · simp [delete_list_comment, hc, hl, hb] at hok
        · have hb' : (actor != c.user_id && actor != l.user_id) = false := by
            cases hval : (actor != c.user_id && actor != l.user_id)
            · rfl
            · exact absurd hval hb
          simp only [delete_list_comment, hc, hl, hb', Bool.false_eq_true,
            if_false, Except.ok.injEq, Prod.mk.injEq] at hok
          obtain ⟨hdb', hcnt, hlid⟩ := hok
          subst hdb'
          subst hlid
          subst hcnt
          refine ⟨rfl, ?_⟩
          intro x hx hid
          rcases mem_map_update _ _ _ _ hx with ⟨y, _, _, hye⟩ | ⟨_, _, hpc⟩
          · subst hye
            rfl
          · rw [hid] at hpc
            simp at hpc

theorem claim1_witness :
    ∃ c, c ∈ (mark_as_watched exdb2 1 7 100 "movie" "T" none).content ∧
      c.id = 3 ∧
      c.watched_count =
        watchedCount (mark_as_watched exdb2 1 7 100 "movie" "T" none) 3 := by
  have h := claim1_counters_recomputed_except_follow.1 exdb2 1 7 100 "movie"
    "T" none
  refine ⟨⟨3, 100, "movie", "T", none, none, none, 1, 0, none, 0, 1⟩, ?_, rfl, ?_⟩
  · decide
  · exact h _ (by decide) (by decide)

/-! ### Claim C9 — get_top_lists_by_engagement ordering -/

instance : IsTotal UserListRow topEngagementLE :=
  ⟨by
    intro a b
    unfold topEngagementLE lexGE4
    omega⟩

instance : IsTrans UserListRow topEngagementLE :=
  ⟨by
    intro a b c hab hbc
    unfold topEngagementLE lexGE4 at hab hbc ⊢
    omega⟩

/-- The tie-break ordering exactly as the claim words it: NULL counters
counted as 0 both in the engagement sum and in the `likes_count` tie-break,
then `updated_at` descending.  (Definition follows the claim's words, to be
compared with the SQL `NULLS LAST` ordering of the source.) -/
def listKeySpecNullsZero (l : UserListRow) : Nat × Nat × Nat :=
  (engagementScore l, coalesce0 l.likes_count, l.updated_at)

/-- Descending lexicographic comparison of the claim's 3-component keys. -/
def lexGE3 (a b : Nat × Nat × Nat) : Prop :=
  b.1 < a.1 ∨ (a.1 = b.1 ∧ (b.2.1 < a.2.1 ∨ (a.2.1 = b.2.1 ∧ b.2.2 ≤ a.2.2)))

instance : DecidableRel lexGE3 := fun a b => by
  unfold lexGE3
  infer_instance

/-- The ordering relation the claim asserts (nulls counted as 0). -/
def topEngagementLESpecNullsZero (a b : UserListRow) : Prop :=
  lexGE3 (listKeySpecNullsZero a) (listKeySpecNullsZero b)

instance : DecidableRel topEngagementLESpecNullsZero := fun a b => by
  unfold topEngagementLESpecNullsZero
  infer_instance

/-- Store for the C9 counterexample: two public lists with equal engagement,
one with `likes_count` NULL and a later `updated_at`, one with `likes_count`
0 and an earlier `updated_at`. -/
def exdb9 : DB :=
  ⟨[], [], [],
   [⟨1, 1, "A", none, true, none, some 3, 0, 100⟩,
    ⟨2, 1, "B", none, true, some 0, some 3, 0, 50⟩],
   [], [], [], [], [], [⟨1, "x", 0, 0⟩], 3⟩

/-- C9 counterexample: under `DESC NULLS LAST` a NULL `likes_count` sorts
after 0, so list B (likes=0, updated=50) precedes list A (likes=NULL,
updated=100) although the claim's nulls-as-0 reading would tie them on likes
and put A (more recent) first: the output is not sorted by the claimed
relation. -/
theorem claim9_nulls_last_not_zero :
    ((get_top_lists_by_engagement exdb9 6).map (fun l => l.id) = [2, 1]) ∧
    ¬ (get_top_lists_by_engagement exdb9 6).Sorted
        topEngagementLESpecNullsZero := by
  constructor
  · decide
  · decide

/-- C9 (amended): `get_top_lists_by_engagement` returns only public lists,
ordered by `(likes_count + comments_count)` descending with NULL counters
counted as 0 in the sum, ties broken by `likes_count` descending with NULL
sorting after all values (below 0), then `updated_at` descending; in
particular a list with likes=5, comments=10 ranks strictly above one with
likes=8, comments=0. -/
theorem claim9_top_engagement_order (db : DB) (limit : Nat) :
    (∀ l ∈ get_top_lists_by_engagement db limit, l.is_public = true) ∧
    (get_top_lists_by_engagement db limit).Sorted topEngagementLE ∧
    (∀ a b : UserListRow, a.likes_count = some 5 → a.comments_count = some 10 →
      b.likes_count = some 8 → b.comments_count = some 0 →
      topEngagementLE a b ∧ ¬ topEngagementLE b a) := by
  refine ⟨?_, ?_, ?_⟩
  · intro l hl
    have hl1 := List.take_subset _ _ hl
    have hl2 := (List.perm_insertionSort topEngagementLE _).mem_iff.mp hl1
    have hl3 := (List.mem_filter.mp hl2).2
    simp only [Bool.and_eq_true] at hl3
    exact hl3.1
  · exact (List.sorted_insertionSort topEngagementLE _).sublist
      (List.take_sublist _ _)
  · intro a b ha1 ha2 hb1 hb2
    unfold topEngagementLE lexGE4 listKey engagementScore coalesce0
    rw [ha1, ha2, hb1, hb2]
    simp

/-- Example rows instantiating the claim's likes/comments comparison. -/
def ex9A : UserListRow := ⟨7, 1, "A", none, true, some 5, some 10, 0, 0⟩

def ex9B : UserListRow := ⟨8, 1, "B", none, true, some 8, some 0, 0, 0⟩

theorem claim9_witness :
    (∀ l ∈ get_top_lists_by_engagement exdb9 6, l.is_public = true) ∧
    (get_top_lists_by_engagement exdb9 6).Sorted topEngagementLE ∧
    (topEngagementLE ex9A ex9B ∧ ¬ topEngagementLE ex9B ex9A) := by
  obtain ⟨h1, h2, h3⟩ := claim9_top_engagement_order exdb9 6
  exact ⟨h1, h2, h3 ex9A ex9B rfl rfl rfl rfl⟩
